import Mathlib

/-!
Verification development for the gridshield smart-meter security core.

The definitions below are a shallow embedding of the C++ sources:
  - src/include/common/core/error.hpp, types.hpp (error codes, enums, records)
  - src/include/common/network/packet.hpp and
    src/firmware/src/common/network/packet.cpp (SecurePacket build/parse/serialize)
  - src/firmware/src/common/hardware/tamper.cpp and firmware/include/common/hardware/tamper.hpp
  - src/src/common/core/system.cpp (GridShieldSystem orchestrator)
  - src/firmware/src/common/security/crypto.cpp (CryptoEngine, AES-GCM wrapper)

Bytes are modelled as Nat (invariant: value < 256 where the C++ type is uint8_t);
machine integers are Nat with explicit reduction mod 2^w where the C++ code can
wrap (the uint32 sequence counter, uint64 unsigned subtraction). Buffers are
List Nat. Fallible C++ operations returning core::Result become Except ErrorCode;
methods that mutate an object return a pair of the result and the new state.
The external crypto libraries (platform SHA-256, micro-ecc ECDSA, the Arduino
GCM cipher) are modelled as abstract parameters (CryptoModel, GcmModel): the
core logic under verification is everything the repository builds on top of them.
-/

namespace GridShield

/-- Error codes from src/include/common/core/error.hpp (the subset the embedded
operations can produce). -/
inductive ErrorCode where
  | Success
  | SystemNotInitialized
  | SystemAlreadyInitialized
  | InvalidState
  | ResourceExhausted
  | SensorReadFailure
  | CryptoFailure
  | AuthenticationFailed
  | IntegrityViolation
  | KeyGenerationFailed
  | SignatureInvalid
  | NetworkTimeout
  | TransmissionFailed
  | InvalidPacket
  | BufferOverflow
  | InvalidParameter
  | NotImplemented
deriving DecidableEq, Repr

/-- Decidable equality for Except results, so concrete outcomes can be checked
by evaluation. -/
instance {α β : Type} [DecidableEq α] [DecidableEq β] : DecidableEq (Except α β)
  | .error a, .error b =>
    if h : a = b then .isTrue (by rw [h]) else .isFalse (by simp [h])
  | .error _, .ok _ => .isFalse (by simp)
  | .ok _, .error _ => .isFalse (by simp)
  | .ok a, .ok b =>
    if h : a = b then .isTrue (by rw [h]) else .isFalse (by simp [h])

/-- Packet types from src/include/common/network/packet.hpp. -/
inductive PacketType where
  | Invalid
  | MeterData
  | TamperAlert
  | Heartbeat
  | Command
  | Acknowledgment
  | KeyExchange
deriving DecidableEq, Repr

/-- Numeric value of a PacketType (uint8_t representation). -/
def PacketType.toNat : PacketType → Nat
  | .Invalid => 0
  | .MeterData => 1
  | .TamperAlert => 2
  | .Heartbeat => 3
  | .Command => 4
  | .Acknowledgment => 5
  | .KeyExchange => 6

/-- Priorities from src/include/common/core/types.hpp. -/
inductive Priority where
  | Lowest
  | Low
  | Normal
  | High
  | Critical
  | Emergency
deriving DecidableEq, Repr

/-- Numeric value of a Priority (uint8_t representation). -/
def Priority.toNat : Priority → Nat
  | .Lowest => 0
  | .Low => 1
  | .Normal => 2
  | .High => 3
  | .Critical => 4
  | .Emergency => 5

/-- System lifecycle states from src/include/common/core/types.hpp. -/
inductive SystemState where
  | Uninitialized
  | Initializing
  | Ready
  | Operating
  | Tampered
  | PowerLoss
  | Error
  | Shutdown
deriving DecidableEq, Repr

/-- Operation modes from src/include/common/core/system.hpp. -/
inductive OperationMode where
  | Normal
  | TamperResponse
  | LowPower
  | Maintenance
deriving DecidableEq, Repr

/-- Tamper classification from firmware/include/common/hardware/tamper.hpp. -/
inductive TamperType where
  | None
  | CasingOpened
  | MagneticInterference
  | TemperatureAnomaly
  | VibrationDetected
  | PowerCutAttempt
  | PhysicalShock
deriving DecidableEq, Repr

/-- Numeric value of a TamperType (uint8_t representation). -/
def TamperType.toNat : TamperType → Nat
  | .None => 0
  | .CasingOpened => 1
  | .MagneticInterference => 2
  | .TemperatureAnomaly => 3
  | .VibrationDetected => 4
  | .PowerCutAttempt => 5
  | .PhysicalShock => 6

/-- Anomaly severities from src/include/analytics/detector.hpp. -/
inductive AnomalySeverity where
  | None
  | Low
  | Medium
  | High
  | Critical
deriving DecidableEq, Repr

/-- Numeric value of an AnomalySeverity (uint8_t representation); the orchestrator
compares severities through this underlying value. -/
def AnomalySeverity.toNat : AnomalySeverity → Nat
  | .None => 0
  | .Low => 1
  | .Medium => 2
  | .High => 3
  | .Critical => 4

/-! ### Little-endian byte encoding helpers

The C++ code moves packed structs to and from byte buffers with memcpy on a
little-endian target (the wire format fixed by spec section 6). The helpers
below are the byte-level meaning of those memcpys: encN splits an unsigned
field into N little-endian bytes, decN reassembles it. Each extracted byte is
reduced mod 256 because the destination of a single-byte read is a uint8_t. -/

/-- Little-endian bytes of a 16-bit field. -/
def enc2 (n : Nat) : List Nat := [n % 256, n / 256 % 256]

/-- Little-endian bytes of a 32-bit field. -/
def enc4 (n : Nat) : List Nat :=
  [n % 256, n / 256 % 256, n / 65536 % 256, n / 16777216 % 256]

/-- Little-endian bytes of a 64-bit field. -/
def enc8 (n : Nat) : List Nat := enc4 n ++ enc4 (n / 4294967296)

/-- Reassemble a 16-bit field from two little-endian bytes. -/
def dec2 (a b : Nat) : Nat := a % 256 + 256 * (b % 256)

/-- Reassemble a 32-bit field from four little-endian bytes. -/
def dec4 (a b c d : Nat) : Nat := dec2 a b + 65536 * dec2 c d

/-- Reassemble a 64-bit field from eight little-endian bytes. -/
def dec8 (a b c d e f g h : Nat) : Nat := dec4 a b c d + 4294967296 * dec4 e f g h

/-- Unsigned 64-bit subtraction as the C++ expression now - before computes it on
uint64_t operands (wraps modulo 2^64 when before exceeds now). -/
def usub64 (a b : Nat) : Nat :=
  (a + (18446744073709551616 - b % 18446744073709551616)) % 18446744073709551616

/-- Overwrite the front of a byte buffer with new bytes, keeping the tail:
the meaning of memcpy(buf, src, src_len) into a larger fixed buffer. -/
def writeBytes (buf new : List Nat) : List Nat := new ++ buf.drop new.length

/-! ### Crypto engine abstraction

CryptoEngine (src/firmware/src/common/security/crypto.cpp) delegates SHA-256 to
the platform and ECDSA to micro-ecc; sign and verify hash the message internally
before the curve operation. The model keeps those primitives abstract: sign maps
a private key and a message to a 64-byte signature (hash-then-curve composed),
ecdsaVerify checks a signature against a public key and message. -/

structure CryptoModel where
  sha256 : List Nat → List Nat
  sign : List Nat → List Nat → List Nat
  ecdsaVerify : List Nat → List Nat → List Nat → Bool

/-- Well-formedness of the crypto primitives: SHA-256 yields 32 bytes and
signatures are 64 bytes, all byte-valued. These are facts about the external
libraries that the packet layout depends on. -/
structure CryptoModel.WF (C : CryptoModel) : Prop where
  sha_length : ∀ m, (C.sha256 m).length = 32
  sha_bytes : ∀ m, ∀ b ∈ C.sha256 m, b < 256
  sign_length : ∀ k m, (C.sign k m).length = 64
  sign_bytes : ∀ k m, ∀ b ∈ C.sign k m, b < 256

/-- ECC key pair (src/firmware/src/common/security/crypto.cpp): fixed-size key
buffers plus possession flags. -/
structure ECCKeyPair where
  private_key : List Nat
  public_key : List Nat
  has_private : Bool
  has_public : Bool
deriving DecidableEq, Repr

/-- CryptoEngine::verify without the null-pointer checks: fails with
InvalidParameter when the key pair lacks a public key, otherwise returns the
verdict of the curve verification. -/
def engineVerify (C : CryptoModel) (kp : ECCKeyPair) (msg sig : List Nat) :
    Except ErrorCode Bool :=
  if kp.has_public = false then .error .InvalidParameter
  else .ok (C.ecdsaVerify kp.public_key msg sig)

/-- Packet checksum as SecurePacket::build and verify_integrity compute it: the
first 4 bytes of SHA-256 of the payload, read little-endian into a uint32. -/
def checksum4 (C : CryptoModel) (payload : List Nat) : Nat :=
  let h := C.sha256 payload
  dec4 (h.getD 0 0) (h.getD 1 0) (h.getD 2 0) (h.getD 3 0)

/-! ### Secure packet protocol

PacketHeader is the packed 31-byte header of packet.hpp; field values are the
integers held by the struct fields. MAGIC_HEADER is 0xA5 = 165, MAGIC_FOOTER is
0x5A = 90, PROTOCOL_VERSION is 0x0100 = 256, MAX_PAYLOAD_SIZE is 512. -/

structure PacketHeader where
  magic_header : Nat
  version : Nat
  ptype : Nat
  priority : Nat
  meter_id : Nat
  sequence : Nat
  payload_length : Nat
  timestamp : Nat
  checksum : Nat
deriving DecidableEq, Repr

/-- Serialize a PacketHeader to its 31-byte packed little-endian layout
(memcpy of the packed struct in SecurePacket::serialize and compute_signature). -/
def encodeHeader (h : PacketHeader) : List Nat :=
  [h.magic_header % 256] ++ enc2 h.version ++ [h.ptype % 256] ++ [h.priority % 256] ++
  enc8 h.meter_id ++ enc4 h.sequence ++ enc2 h.payload_length ++
  enc8 h.timestamp ++ enc4 h.checksum

/-- Read a PacketHeader from the first 31 bytes of a buffer (memcpy of the
buffer prefix onto the packed struct in SecurePacket::parse). Buffers shorter
than 31 bytes are never decoded by parse, which checks the length first. -/
def decodeHeader : List Nat → PacketHeader
  | m :: v0 :: v1 :: t :: pr :: i0 :: i1 :: i2 :: i3 :: i4 :: i5 :: i6 :: i7 ::
    s0 :: s1 :: s2 :: s3 :: l0 :: l1 ::
    u0 :: u1 :: u2 :: u3 :: u4 :: u5 :: u6 :: u7 :: c0 :: c1 :: c2 :: c3 :: _ =>
    { magic_header := m % 256
      version := dec2 v0 v1
      ptype := t % 256
      priority := pr % 256
      meter_id := dec8 i0 i1 i2 i3 i4 i5 i6 i7
      sequence := dec4 s0 s1 s2 s3
      payload_length := dec2 l0 l1
      timestamp := dec8 u0 u1 u2 u3 u4 u5 u6 u7
      checksum := dec4 c0 c1 c2 c3 }
  | _ =>
    { magic_header := 0, version := 0, ptype := 0, priority := 0, meter_id := 0,
      sequence := 0, payload_length := 0, timestamp := 0, checksum := 0 }

/-- State of a SecurePacket object (packet.hpp): header, the 512-byte payload
buffer, the footer (64-byte signature plus magic byte), the validity flag and
the per-instance sequence counter. -/
structure SecurePacket where
  header : PacketHeader
  payload : List Nat
  footer_signature : List Nat
  footer_magic : Nat
  is_valid : Bool
  next_sequence : Nat
deriving DecidableEq, Repr

/-- SecurePacket default constructor: invalid, sequence counter 0, zeroed
payload buffer, default header (magic 0xA5, version 0x0100, type Invalid,
priority Normal) and default footer (zero signature, magic 0x5A). -/
def SecurePacket.init : SecurePacket :=
  { header :=
      { magic_header := 165, version := 256, ptype := PacketType.Invalid.toNat,
        priority := Priority.Normal.toNat, meter_id := 0, sequence := 0,
        payload_length := 0, timestamp := 0, checksum := 0 }
    payload := List.replicate 512 0
    footer_signature := List.replicate 64 0
    footer_magic := 90
    is_valid := false
    next_sequence := 0 }

/-- SecurePacket::build (packet.cpp lines 31-79). Rejects payloads over
MAX_PAYLOAD_SIZE with BufferOverflow and key pairs without a private key with
AuthenticationFailed, both before any mutation. Otherwise sets the header
fields (sequence from the counter, which then advances with uint32 wraparound;
timestamp hard-coded 0), copies the payload into the buffer, stores the first
4 bytes of SHA-256 of the payload as checksum, signs header plus payload and
marks the packet valid. The platform primitives are modelled total, so the
sign step cannot fail. -/
def SecurePacket.build (p : SecurePacket) (C : CryptoModel) (ptype : PacketType)
    (meter_id : Nat) (prio : Priority) (payload : List Nat) (kp : ECCKeyPair) :
    Except ErrorCode Unit × SecurePacket :=
  if payload.length > 512 then (.error .BufferOverflow, p)
  else if kp.has_private = false then (.error .AuthenticationFailed, p)
  else
    let pay := writeBytes p.payload payload
    let hdr : PacketHeader :=
      { magic_header := p.header.magic_header
        version := p.header.version
        ptype := ptype.toNat
        priority := prio.toNat
        meter_id := meter_id
        sequence := p.next_sequence
        payload_length := payload.length
        timestamp := 0
        checksum := checksum4 C (pay.take payload.length) }
    let sig := C.sign kp.private_key (encodeHeader hdr ++ pay.take payload.length)
    (.ok (),
      { header := hdr, payload := pay, footer_signature := sig,
        footer_magic := p.footer_magic, is_valid := true,
        next_sequence := (p.next_sequence + 1) % 4294967296 })

/-- SecurePacket::parse (packet.cpp lines 81-163). Checks the buffer holds at
least header plus footer, copies the header in, checks magic, payload length
bound and total length, copies payload and footer in, checks the footer magic,
recomputes the checksum (IntegrityViolation on mismatch) and verifies the ECDSA
signature over header plus payload against the sender key (SignatureInvalid on
a failed or erroring verification). Only on full success is the validity flag
set; no failure path ever clears it. -/
def SecurePacket.parse (p : SecurePacket) (C : CryptoModel) (buffer : List Nat)
    (server_kp : ECCKeyPair) : Except ErrorCode Unit × SecurePacket :=
  if buffer.length < 96 then (.error .InvalidPacket, p)
  else
    let hdr := decodeHeader buffer
    let p1 := { p with header := hdr }
    if hdr.magic_header ≠ 165 then (.error .InvalidPacket, p1)
    else if hdr.payload_length > 512 then (.error .BufferOverflow, p1)
    else if buffer.length < 96 + hdr.payload_length then (.error .InvalidPacket, p1)
    else
      let pay := writeBytes p.payload ((buffer.drop 31).take hdr.payload_length)
      let footer := buffer.drop (31 + hdr.payload_length)
      let sig := footer.take 64
      let fmagic := (footer.drop 64).headD 0
      let p2 := { p1 with payload := pay, footer_signature := sig, footer_magic := fmagic }
      if fmagic ≠ 90 then (.error .InvalidPacket, p2)
      else if checksum4 C (pay.take hdr.payload_length) ≠ hdr.checksum then
        (.error .IntegrityViolation, p2)
      else
        match engineVerify C server_kp (encodeHeader hdr ++ pay.take hdr.payload_length) sig with
        | .error _ => (.error .SignatureInvalid, p2)
        | .ok false => (.error .SignatureInvalid, p2)
        | .ok true => (.ok (), { p2 with is_valid := true })

/-- SecurePacket::serialize (packet.cpp lines 165-192): InvalidState unless the
packet was successfully built or parsed, BufferOverflow when the destination is
smaller than header plus payload plus footer, otherwise the three sections
written contiguously. The returned list is the written byte region (its length
is the size_t the C++ function returns). -/
def SecurePacket.serialize (p : SecurePacket) (buffer_size : Nat) :
    Except ErrorCode (List Nat) :=
  if p.is_valid = false then .error .InvalidState
  else if buffer_size < 96 + p.header.payload_length then .error .BufferOverflow
  else .ok (encodeHeader p.header ++ p.payload.take p.header.payload_length ++
            p.footer_signature ++ [p.footer_magic])

/-- Header produced by a successful SecurePacket::build on state p (used to
state the build characterization lemma once). -/
def builtHeader (p : SecurePacket) (C : CryptoModel) (ptype : PacketType)
    (meter_id : Nat) (prio : Priority) (payload : List Nat) : PacketHeader :=
  { magic_header := p.header.magic_header
    version := p.header.version
    ptype := ptype.toNat
    priority := prio.toNat
    meter_id := meter_id
    sequence := p.next_sequence
    payload_length := payload.length
    timestamp := 0
    checksum := checksum4 C payload }

/-! ### Tamper detector

TamperDetector (src/firmware/src/common/hardware/tamper.cpp). The interrupt
handler sets pending_tamper and last_trigger_time; poll performs the deferred
debounce confirmation. The platform reads poll performs (monotonic time, the
sensor GPIO, the backup-power GPIO) are supplied through a PollEnv oracle:
now is the time read at the debounce check, confirm_time the time read inside
confirm_tamper, sensor_read and backup_read the two GPIO reads. -/

structure TamperConfig where
  sensor_pin : Nat
  backup_power_pin : Nat
  debounce_ms : Nat
  sensitivity : Nat
deriving DecidableEq, Repr

/-- TamperConfig default constructor: pins 0, debounce 50 ms, sensitivity 128. -/
def TamperConfig.default : TamperConfig :=
  { sensor_pin := 0, backup_power_pin := 0, debounce_ms := 50, sensitivity := 128 }

structure TamperDetector where
  config : TamperConfig
  is_tampered : Bool
  pending_tamper : Bool
  tamper_type : TamperType
  tamper_timestamp : Nat
  last_trigger_time : Nat
  initialized : Bool
deriving DecidableEq, Repr

/-- Platform observations consumed by one call to TamperDetector::poll. A GPIO
read yields Except: the C++ Result of IPlatformGpio::read. -/
structure PollEnv where
  now : Nat
  confirm_time : Nat
  sensor_read : Except ErrorCode Bool
  backup_read : Except ErrorCode Bool

/-- TamperDetector::confirm_tamper (tamper.cpp lines 156-168): classify as
CasingOpened, then as PowerCutAttempt when a backup-power pin is configured and
its read succeeds with value false (de-energized). -/
def TamperDetector.confirmType (td : TamperDetector) (env : PollEnv) : TamperType :=
  if td.config.backup_power_pin > 0 then
    match env.backup_read with
    | .ok false => .PowerCutAttempt
    | _ => .CasingOpened
  else .CasingOpened

/-- TamperDetector::poll (tamper.cpp lines 115-143): no-op unless initialized;
nothing to process unless a tamper is pending and none confirmed; waits out the
debounce window (uint64 subtraction against the trigger timestamp); then
re-reads the sensor: a read error or a high (released, active-low) reading
discards the pending trigger, a low reading confirms the tamper
(confirm_tamper) and clears the pending flag. -/
def TamperDetector.poll (td : TamperDetector) (env : PollEnv) :
    Except ErrorCode Unit × TamperDetector :=
  if td.initialized = false then (.error .SystemNotInitialized, td)
  else if td.pending_tamper = false ∨ td.is_tampered = true then (.ok (), td)
  else if usub64 env.now td.last_trigger_time < td.config.debounce_ms then (.ok (), td)
  else
    match env.sensor_read with
    | .error _ => (.ok (), { td with pending_tamper := false })
    | .ok true => (.ok (), { td with pending_tamper := false })
    | .ok false =>
      (.ok (),
        { td with
          is_tampered := true
          tamper_type := td.confirmType env
          tamper_timestamp := env.confirm_time
          pending_tamper := false })

/-! ### Cross-layer validation (src/include/analytics/detector.hpp lines 100-130) -/

structure CrossLayerValidation where
  physical_tamper_detected : Bool
  network_anomaly_detected : Bool
  consumption_anomaly_detected : Bool
  validation_timestamp : Nat
deriving DecidableEq, Repr

/-- CrossLayerValidation::requires_investigation. -/
def CrossLayerValidation.requires_investigation (v : CrossLayerValidation) : Bool :=
  (v.physical_tamper_detected && v.consumption_anomaly_detected) ||
  (v.network_anomaly_detected && v.consumption_anomaly_detected)

/-- CrossLayerValidation::get_priority. -/
def CrossLayerValidation.get_priority (v : CrossLayerValidation) : Priority :=
  if v.physical_tamper_detected && v.consumption_anomaly_detected &&
     v.network_anomaly_detected then .Emergency
  else if v.physical_tamper_detected ||
          (v.consumption_anomaly_detected && v.network_anomaly_detected) then .Critical
  else if v.consumption_anomaly_detected || v.network_anomaly_detected then .High
  else .Normal

/-- Escalation policy exactly as the specification states it (spec section 4.4
and the section 8 escalation table), written as the explicit table over the 8
combinations of (physical-tamper, network-anomaly, consumption-anomaly);
the first component is the escalated priority, the second the
requires-investigation verdict. -/
def specEscalationTable (tamper network consumption : Bool) : Priority × Bool :=
  match tamper, network, consumption with
  | true,  true,  true  => (.Emergency, true)
  | true,  true,  false => (.Critical, false)
  | true,  false, true  => (.Critical, true)
  | true,  false, false => (.Critical, false)
  | false, true,  true  => (.Critical, true)
  | false, true,  false => (.High, false)
  | false, false, true  => (.High, false)
  | false, false, false => (.Normal, false)

/-! ### Records carried in packet payloads (src/include/common/core/types.hpp) -/

structure MeterReading where
  timestamp : Nat
  energy_wh : Nat
  voltage_mv : Nat
  current_ma : Nat
  power_factor : Nat
  phase : Nat
deriving DecidableEq, Repr

/-- Packed 24-byte layout of MeterReading (three reserved zero bytes at the end). -/
def encodeMeterReading (r : MeterReading) : List Nat :=
  enc8 r.timestamp ++ enc4 r.energy_wh ++ enc4 r.voltage_mv ++
  enc2 r.current_ma ++ enc2 r.power_factor ++ [r.phase % 256] ++ [0, 0, 0]

structure TamperEvent where
  timestamp : Nat
  metadata : Nat
  sensor_id : Nat
  event_type : Nat
  severity : Nat
deriving DecidableEq, Repr

/-- Packed 16-byte layout of TamperEvent. -/
def encodeTamperEvent (e : TamperEvent) : List Nat :=
  enc8 e.timestamp ++ enc4 e.metadata ++ enc2 e.sensor_id ++
  [e.event_type % 256] ++ [e.severity % 256]

/-! ### System orchestrator (src/src/common/core/system.cpp)

GridShieldSystem owns the lifecycle state machine and wires the tamper
detector, crypto engine and packet transport together. The heap-allocated
crypto engine and transport pointers become the booleans has_crypto and
has_transport (pointer non-null after initialize). Platform reads and
transport outcomes during one process_cycle are supplied by a CycleEnv oracle;
the trace of transport send attempts (packet type paired with the send result)
is returned alongside the new state, modelling the calls handed to the
external IPlatformComm. -/

structure SystemConfig where
  meter_id : Nat
  tamper_config : TamperConfig
  heartbeat_interval_ms : Nat
  reading_interval_ms : Nat
deriving DecidableEq, Repr

structure GridShieldSystem where
  config : SystemConfig
  state : SystemState
  mode : OperationMode
  initialized : Bool
  has_crypto : Bool
  has_transport : Bool
  device_keypair : ECCKeyPair
  tamper_detector : TamperDetector
  validation_state : CrossLayerValidation
  last_heartbeat : Nat
  last_reading : Nat
deriving DecidableEq, Repr

/-- Oracle for the platform and transport interactions of one process_cycle:
the four get_timestamp_ms reads (cycle start, inside handle_tamper_event,
inside send_heartbeat, inside perform_cross_layer_validation), the
IPlatformComm::send outcome for each packet the cycle may emit (byte count or
error), and the anomaly-detector results (analyze reduced to the severity the
orchestrator inspects, and the update_profile outcome). -/
structure CycleEnv where
  current_time : Nat
  tamper_validation_time : Nat
  heartbeat_time : Nat
  cross_validation_time : Nat
  tamper_send : Except ErrorCode Nat
  heartbeat_send : Except ErrorCode Nat
  reading_send : Except ErrorCode Nat
  analyze_result : Except ErrorCode AnomalySeverity
  update_profile_result : Except ErrorCode Unit

/-- PacketTransport::send_packet (packet.cpp lines 242-270): reject invalid
packets, serialize into the 608-byte stack buffer, hand the bytes to the
transport and require the full count to be accepted. -/
def sendPacketVia (pkt : SecurePacket) (send_result : Except ErrorCode Nat) :
    Except ErrorCode Unit :=
  if pkt.is_valid = false then .error .InvalidState
  else
    match pkt.serialize 608 with
    | .error e => .error e
    | .ok bytes =>
      match send_result with
      | .error e => .error e
      | .ok n => if n ≠ bytes.length then .error .TransmissionFailed else .ok ()

/-- GridShieldSystem::send_tamper_alert (system.cpp lines 219-242): guard on
initialization, build a TamperAlert packet on a fresh SecurePacket instance
from the detector state at Emergency priority, and send it. The second
component is the trace of transport send attempts made. -/
def GridShieldSystem.send_tamper_alert (sys : GridShieldSystem) (C : CryptoModel)
    (env : CycleEnv) : Except ErrorCode Unit × List (PacketType × Except ErrorCode Unit) :=
  if sys.initialized = false ∨ sys.has_crypto = false ∨ sys.has_transport = false then
    (.error .SystemNotInitialized, [])
  else
    let ev : TamperEvent :=
      { timestamp := sys.tamper_detector.tamper_timestamp
        metadata := 0
        sensor_id := sys.config.tamper_config.sensor_pin
        event_type := sys.tamper_detector.tamper_type.toNat
        severity := Priority.Emergency.toNat }
    match SecurePacket.init.build C .TamperAlert sys.config.meter_id .Emergency
        (encodeTamperEvent ev) sys.device_keypair with
    | (.error e, _) => (.error e, [])
    | (.ok _, pkt) =>
      let r := sendPacketVia pkt env.tamper_send
      (r, [(.TamperAlert, r)])

/-- GridShieldSystem::send_heartbeat (system.cpp lines 244-269): build a
Heartbeat packet carrying the current timestamp as 8 little-endian bytes at Low
priority on a fresh instance, and send it. -/
def GridShieldSystem.send_heartbeat (sys : GridShieldSystem) (C : CryptoModel)
    (env : CycleEnv) : Except ErrorCode Unit × List (PacketType × Except ErrorCode Unit) :=
  if sys.initialized = false ∨ sys.has_crypto = false ∨ sys.has_transport = false then
    (.error .SystemNotInitialized, [])
  else
    match SecurePacket.init.build C .Heartbeat sys.config.meter_id .Low
        (enc8 env.heartbeat_time) sys.device_keypair with
    | (.error e, _) => (.error e, [])
    | (.ok _, pkt) =>
      let r := sendPacketVia pkt env.heartbeat_send
      (r, [(.Heartbeat, r)])

/-- GridShieldSystem::send_meter_reading (system.cpp lines 184-217): guard on
initialization; run the anomaly detector and latch consumption_anomaly_detected
when the reported severity is High or above; update the consumption profile
(aborting on failure); build a MeterData packet from the 24-byte reading at
Normal priority on a fresh instance and send it. Returns result, new system
state and the send-attempt trace. -/
def GridShieldSystem.send_meter_reading (sys : GridShieldSystem) (C : CryptoModel)
    (env : CycleEnv) (reading : MeterReading) :
    Except ErrorCode Unit × GridShieldSystem × List (PacketType × Except ErrorCode Unit) :=
  if sys.initialized = false ∨ sys.has_crypto = false ∨ sys.has_transport = false then
    (.error .SystemNotInitialized, sys, [])
  else
    let sys1 :=
      match env.analyze_result with
      | .ok sev =>
        if sev.toNat ≥ AnomalySeverity.High.toNat then
          { sys with validation_state :=
              { sys.validation_state with consumption_anomaly_detected := true } }
        else sys
      | .error _ => sys
    match env.update_profile_result with
    | .error e => (.error e, sys1, [])
    | .ok _ =>
      match SecurePacket.init.build C .MeterData sys.config.meter_id .Normal
          (encodeMeterReading reading) sys.device_keypair with
      | (.error e, _) => (.error e, sys1, [])
      | (.ok _, pkt) =>
        let r := sendPacketVia pkt env.reading_send
        (r, sys1, [(.MeterData, r)])

/-- GridShieldSystem::handle_tamper_event (system.cpp lines 291-306) up to the
send: transition to Tampered, switch to tamper-response mode, latch the
physical-tamper signal and stamp the validation time. The alert send and its
error propagation stay in process_cycle below. -/
def GridShieldSystem.tamperTransition (sys : GridShieldSystem) (env : CycleEnv) :
    GridShieldSystem :=
  { sys with
    state := .Tampered
    mode := .TamperResponse
    validation_state :=
      { sys.validation_state with
        physical_tamper_detected := true
        validation_timestamp := env.tamper_validation_time } }

/-- Steps 2-4 of GridShieldSystem::process_cycle (system.cpp lines 152-181):
heartbeat when its interval elapsed (send result ignored, clock restamped),
periodic placeholder meter reading when its interval elapsed (send result
ignored, clock restamped), then perform_cross_layer_validation (system.cpp
lines 308-324: restamp validation time, mirror the tamper flag, clear the
network-anomaly placeholder, keep the consumption flag). -/
def GridShieldSystem.cycleSteps (sys : GridShieldSystem) (C : CryptoModel)
    (env : CycleEnv) (tr0 : List (PacketType × Except ErrorCode Unit)) :
    Except ErrorCode Unit × GridShieldSystem × List (PacketType × Except ErrorCode Unit) :=
  let t := env.current_time
  let hb :=
    if usub64 t sys.last_heartbeat ≥ sys.config.heartbeat_interval_ms then
      ({ sys with last_heartbeat := t }, (sys.send_heartbeat C env).2)
    else (sys, [])
  let sys1 := hb.1
  let rd :=
    if usub64 t sys1.last_reading ≥ sys1.config.reading_interval_ms then
      let reading : MeterReading :=
        { timestamp := t, energy_wh := 1000, voltage_mv := 220000,
          current_ma := 4545, power_factor := 95, phase := 0 }
      let s := sys1.send_meter_reading C env reading
      ({ s.2.1 with last_reading := t }, s.2.2)
    else (sys1, [])
  let sys2 := rd.1
  let sys3 :=
    { sys2 with validation_state :=
        { sys2.validation_state with
          validation_timestamp := env.cross_validation_time
          physical_tamper_detected := sys2.tamper_detector.is_tampered
          network_anomaly_detected := false } }
  (.ok (), sys3, tr0 ++ hb.2 ++ rd.2)

/-- GridShieldSystem::process_cycle (system.cpp lines 136-182): InvalidState
outside Operating or Tampered; when the tamper detector reports a confirmed
tamper and the state is not yet Tampered, run handle_tamper_event — if the
alert send fails, its error is returned immediately and the rest of the tick
is skipped; otherwise continue with heartbeat, reading and cross-layer
validation. Note process_cycle reads is_tampered only: it never calls
TamperDetector::poll (no call site exists in the repository). -/
def GridShieldSystem.process_cycle (sys : GridShieldSystem) (C : CryptoModel)
    (env : CycleEnv) :
    Except ErrorCode Unit × GridShieldSystem × List (PacketType × Except ErrorCode Unit) :=
  if sys.state ≠ .Operating ∧ sys.state ≠ .Tampered then (.error .InvalidState, sys, [])
  else if sys.tamper_detector.is_tampered = true ∧ sys.state ≠ .Tampered then
    let sysT := sys.tamperTransition env
    match sysT.send_tamper_alert C env with
    | (.error e, tr) => (.error e, sysT, tr)
    | (.ok _, tr) => sysT.cycleSteps C env tr
  else sys.cycleSteps C env []

/-! ### AES-GCM decryption wrapper (src/firmware/src/common/security/crypto.cpp)

The Arduino Crypto GCM cipher is abstract: gcmDecrypt is the keystream
decryption (key, nonce, ciphertext to plaintext of the same length) and
gcmCheckTag the authentication-tag verification over the processed data. -/

structure GcmModel where
  gcmDecrypt : List Nat → List Nat → List Nat → List Nat
  gcmCheckTag : List Nat → List Nat → List Nat → List Nat → Bool

/-- CryptoEngine::decrypt_aes_gcm (crypto.cpp lines 293-324) with the
null-pointer guards reduced to the empty-ciphertext check: the cipher decrypts
straight into the caller buffer plaintext_out, and only afterwards is the
authentication tag checked; a failed check returns IntegrityViolation. The
result pairs the Result<size_t> with the final contents of the caller buffer. -/
def decrypt_aes_gcm (G : GcmModel) (key nonce ct tag out : List Nat) :
    Except ErrorCode Nat × List Nat :=
  if ct.length = 0 then (.error .InvalidParameter, out)
  else
    let out1 := writeBytes out (G.gcmDecrypt key nonce ct)
    if G.gcmCheckTag key nonce ct tag then (.ok ct.length, out1)
    else (.error .IntegrityViolation, out1)

/-! ### Iterated builds

Helper composing N successive SecurePacket::build calls on the same instance,
starting from a freshly constructed packet: the subject of the sequence
monotonicity property. -/

def buildIter (C : CryptoModel) (t : PacketType) (mid : Nat) (pr : Priority)
    (payload : List Nat) (kp : ECCKeyPair) : Nat → SecurePacket
  | 0 => SecurePacket.init
  | Nat.succ k => ((buildIter C t mid pr payload kp k).build C t mid pr payload kp).2

/-! ### Concrete stand-ins for the external crypto libraries

The theorems below are parameterized over an abstract CryptoModel or GcmModel;
these small executable instances exist so that every theorem with hypotheses
can be exercised on a fully concrete input. toySha and toySign are rolling
hashes of the right output size, and toyVerify accepts exactly the signature
toySign produces for the private key that toyPub encodes; toyGcm shifts every
ciphertext byte and rejects every tag. -/

def toySha (m : List Nat) : List Nat :=
  (List.range 32).map
    (fun i => (m.foldl (fun a b => (a * 31 + b + i + 1) % 256) (i + 7)) % 256)

def toySign (sk m : List Nat) : List Nat :=
  (List.range 64).map
    (fun i => ((sk ++ m).foldl (fun a b => (a * 33 + b + i) % 256) (i + 3)) % 256)

def toyPriv : List Nat := List.replicate 32 1

def toyPub : List Nat := List.replicate 64 2

def toyVerify (pk m s : List Nat) : Bool :=
  s == toySign ((pk.take 32).map (fun b => b - 1)) m

def toyCrypto : CryptoModel :=
  { sha256 := toySha, sign := toySign, ecdsaVerify := toyVerify }

def toyKeyPair : ECCKeyPair :=
  { private_key := toyPriv, public_key := toyPub, has_private := true, has_public := true }

def toyGcm : GcmModel :=
  { gcmDecrypt := fun _ _ ct => ct.map (fun b => (b + 1) % 256)
    gcmCheckTag := fun _ _ _ _ => false }

/-- Tamper detector state after a confirmed tamper (used as a concrete fixture). -/
def toyDetectorConfirmed : TamperDetector :=
  { config := TamperConfig.default
    is_tampered := true
    pending_tamper := false
    tamper_type := .CasingOpened
    tamper_timestamp := 5
    last_trigger_time := 0
    initialized := true }

/-- Tamper detector state with a pending, unconfirmed trigger recorded at time 0
(used as a concrete fixture). -/
def toyDetectorPending : TamperDetector :=
  { config := TamperConfig.default
    is_tampered := false
    pending_tamper := true
    tamper_type := .None
    tamper_timestamp := 0
    last_trigger_time := 0
    initialized := true }

/-- Concrete poll environment at time 100 whose sensor re-read still shows the
active-low sensor asserted (reads low). -/
def toyPollEnvConfirm : PollEnv :=
  { now := 100, confirm_time := 101, sensor_read := .ok false, backup_read := .ok true }

/-- Concrete orchestrator state in Operating with a heartbeat due soon and the
reading interval far away, parameterized by the tamper detector fixture. -/
def toySystem (td : TamperDetector) : GridShieldSystem :=
  { config :=
      { meter_id := 7, tamper_config := TamperConfig.default,
        heartbeat_interval_ms := 10, reading_interval_ms := 1000000 }
    state := .Operating
    mode := .Normal
    initialized := true
    has_crypto := true
    has_transport := true
    device_keypair := toyKeyPair
    tamper_detector := td
    validation_state :=
      { physical_tamper_detected := false, network_anomaly_detected := false,
        consumption_anomaly_detected := false, validation_timestamp := 0 }
    last_heartbeat := 0
    last_reading := 0 }

/-- Concrete cycle environment at time 100 whose tamper-alert transport send
fails; all other platform interactions succeed. -/
def toyEnvSendFail : CycleEnv :=
  { current_time := 100
    tamper_validation_time := 101
    heartbeat_time := 102
    cross_validation_time := 103
    tamper_send := .error .TransmissionFailed
    heartbeat_send := .ok 112
    reading_send := .ok 120
    analyze_result := .ok .None
    update_profile_result := .ok () }

/-- Packet state SecurePacket::parse leaves on a fresh instance once it has
copied header, payload and footer in from a frame (used to state the frame
characterization lemma once); the validity flag is still the constructor value
false and only a fully successful parse flips it. -/
def frameParsed (H : PacketHeader) (payload sig : List Nat) (m : Nat) : SecurePacket :=
  { header := H
    payload := writeBytes SecurePacket.init.payload payload
    footer_signature := sig
    footer_magic := m
    is_valid := false
    next_sequence := 0 }

/-! ## Supporting lemmas -/

theorem length_enc2 (n : Nat) : (enc2 n).length = 2 := rfl

theorem length_enc4 (n : Nat) : (enc4 n).length = 4 := rfl

theorem length_enc8 (n : Nat) : (enc8 n).length = 8 := rfl

theorem length_encodeHeader (h : PacketHeader) : (encodeHeader h).length = 31 := rfl

theorem length_encodeTamperEvent (e : TamperEvent) : (encodeTamperEvent e).length = 16 := rfl

theorem length_encodeMeterReading (r : MeterReading) : (encodeMeterReading r).length = 24 := rfl

theorem PacketType_toNat_lt (t : PacketType) : t.toNat < 256 := by
  cases t <;> decide

theorem Priority_toNat_lt (pr : Priority) : pr.toNat < 256 := by
  cases pr <;> decide

theorem checksum4_lt (C : CryptoModel) (payload : List Nat) :
    checksum4 C payload < 4294967296 := by
  simp only [checksum4, dec4, dec2]
  omega

theorem usub64_eq_sub (a b : Nat) (hba : b ≤ a) (ha : a < 18446744073709551616) :
    usub64 a b = a - b := by
  unfold usub64
  omega

theorem take_writeBytes (buf new : List Nat) :
    (writeBytes buf new).take new.length = new :=
  List.take_left new (buf.drop new.length)

theorem decodeHeader_encodeHeader (h : PacketHeader) (rest : List Nat)
    (h1 : h.magic_header < 256) (h2 : h.version < 65536) (h3 : h.ptype < 256)
    (h4 : h.priority < 256) (h5 : h.meter_id < 18446744073709551616)
    (h6 : h.sequence < 4294967296) (h7 : h.payload_length < 65536)
    (h8 : h.timestamp < 18446744073709551616) (h9 : h.checksum < 4294967296) :
    decodeHeader (encodeHeader h ++ rest) = h := by
  obtain ⟨m, v, t, pr, mi, sq, pl, ts, ck⟩ := h
  dsimp only at h1 h2 h3 h4 h5 h6 h7 h8 h9
  simp only [encodeHeader, enc2, enc4, enc8, List.cons_append, List.nil_append,
    List.append_assoc]
  simp only [decodeHeader, dec2, dec4, dec8, PacketHeader.mk.injEq]
  refine ⟨?_, ?_, ?_, ?_, ?_, ?_, ?_, ?_, ?_⟩ <;> omega

theorem build_eq (p : SecurePacket) (C : CryptoModel) (t : PacketType) (mid : Nat)
    (pr : Priority) (payload : List Nat) (kp : ECCKeyPair)
    (hlen : payload.length ≤ 512) (hpriv : kp.has_private = true) :
    p.build C t mid pr payload kp =
      (.ok (),
       { header := builtHeader p C t mid pr payload
         payload := writeBytes p.payload payload
         footer_signature :=
           C.sign kp.private_key (encodeHeader (builtHeader p C t mid pr payload) ++ payload)
         footer_magic := p.footer_magic
         is_valid := true
         next_sequence := (p.next_sequence + 1) % 4294967296 }) := by
  simp only [SecurePacket.build, builtHeader]
  rw [if_neg (by omega), if_neg (by simp [hpriv])]
  simp [take_writeBytes]

theorem serialize_ok (q : SecurePacket) (bs : Nat) (hv : q.is_valid = true)
    (h : 96 + q.header.payload_length ≤ bs) :
    q.serialize bs =
      .ok (encodeHeader q.header ++ q.payload.take q.header.payload_length ++
           q.footer_signature ++ [q.footer_magic]) := by
  unfold SecurePacket.serialize
  rw [if_neg (by simp [hv]), if_neg (by omega)]

/-- Serialization of the packet state a successful build produces: the three
frame sections written contiguously (stated against the exact record build_eq
yields, so the two lemmas compose syntactically). -/
theorem serialize_built_frame (p : SecurePacket) (C : CryptoModel) (t : PacketType)
    (mid : Nat) (pr : Priority) (payload : List Nat) (kp : ECCKeyPair) :
    (({ header := builtHeader p C t mid pr payload
        payload := writeBytes p.payload payload
        footer_signature :=
          C.sign kp.private_key (encodeHeader (builtHeader p C t mid pr payload) ++ payload)
        footer_magic := p.footer_magic
        is_valid := true
        next_sequence := (p.next_sequence + 1) % 4294967296 } : SecurePacket).serialize
      (96 + payload.length)) =
      .ok (encodeHeader (builtHeader p C t mid pr payload) ++
        (payload ++
          (C.sign kp.private_key (encodeHeader (builtHeader p C t mid pr payload) ++ payload) ++
            [p.footer_magic]))) := by
  rw [serialize_ok _ _ rfl (by simp [builtHeader])]
  simp [builtHeader, take_writeBytes, List.append_assoc]

/-! ## Claim theorems -/

/-- C2: CrossLayerValidation::get_priority and requires_investigation realize,
for each of the 8 combinations of the three booleans, exactly the escalation
table of the specification: all three set gives Emergency; physical tamper, or
consumption and network anomaly together, gives Critical; consumption or
network anomaly alone gives High; otherwise Normal; and investigation is
required iff a consumption anomaly corroborates the tamper or network signal. -/
theorem crossLayer_matches_spec_escalation_table :
    ∀ v : CrossLayerValidation,
      (v.get_priority, v.requires_investigation) =
        specEscalationTable v.physical_tamper_detected v.network_anomaly_detected
          v.consumption_anomaly_detected := by
  intro v
  obtain ⟨t, n, c, ts⟩ := v
  cases t <;> cases n <;> cases c <;> rfl

/-- C9: SecurePacket::build rejects payloads longer than 512 bytes with
BufferOverflow, and (when the length check passes) rejects a key pair without a
private key with AuthenticationFailed; in both cases the packet state is
returned exactly as it was, so no header field is populated and the sequence
counter does not advance. The length check runs first, which is why the second
rejection is stated for payloads within bounds. -/
theorem build_rejections (p : SecurePacket) (C : CryptoModel) (t : PacketType)
    (mid : Nat) (pr : Priority) (payload : List Nat) (kp : ECCKeyPair) :
    (payload.length > 512 →
       p.build C t mid pr payload kp = (.error .BufferOverflow, p)) ∧
    (payload.length ≤ 512 → kp.has_private = false →
       p.build C t mid pr payload kp = (.error .AuthenticationFailed, p)) := by
  constructor
  · intro h
    unfold SecurePacket.build
    rw [if_pos h]
  · intro h1 h2
    unfold SecurePacket.build
    rw [if_neg (by omega), if_pos h2]

/-- C9 witness: the two rejection branches exercised on concrete inputs: a
513-byte payload is rejected with BufferOverflow and a public-only key pair
with AuthenticationFailed, leaving the fresh packet state untouched. -/
theorem build_rejections_witness :
    (SecurePacket.init.build toyCrypto .MeterData 7 .Normal (List.replicate 513 0)
        toyKeyPair = (.error .BufferOverflow, SecurePacket.init)) ∧
    (SecurePacket.init.build toyCrypto .MeterData 7 .Normal [1, 2]
        { toyKeyPair with has_private := false } =
      (.error .AuthenticationFailed, SecurePacket.init)) := by
  constructor
  · exact (build_rejections SecurePacket.init toyCrypto .MeterData 7 .Normal
      (List.replicate 513 0) toyKeyPair).1 (by rw [List.length_replicate]; omega)
  · exact (build_rejections SecurePacket.init toyCrypto .MeterData 7 .Normal
      [1, 2] { toyKeyPair with has_private := false }).2 (by simp) rfl

theorem build_advances_sequence (p : SecurePacket) (C : CryptoModel) (t : PacketType)
    (mid : Nat) (pr : Priority) (payload : List Nat) (kp : ECCKeyPair)
    (hlen : payload.length ≤ 512) (hpriv : kp.has_private = true) :
    (p.build C t mid pr payload kp).1 = .ok () ∧
    (p.build C t mid pr payload kp).2.header.sequence = p.next_sequence ∧
    (p.build C t mid pr payload kp).2.next_sequence = (p.next_sequence + 1) % 4294967296 := by
  rw [build_eq p C t mid pr payload kp hlen hpriv]
  exact ⟨rfl, rfl, rfl⟩

theorem buildIter_next_sequence (C : CryptoModel) (t : PacketType) (mid : Nat)
    (pr : Priority) (payload : List Nat) (kp : ECCKeyPair)
    (hlen : payload.length ≤ 512) (hpriv : kp.has_private = true) :
    ∀ k, (buildIter C t mid pr payload kp k).next_sequence = k % 4294967296 := by
  intro k
  induction k with
  | zero => rfl
  | succ n ih =>
    show ((buildIter C t mid pr payload kp n).build C t mid pr payload kp).2.next_sequence = _
    rw [(build_advances_sequence _ C t mid pr payload kp hlen hpriv).2.2, ih]
    omega

theorem buildIter_header_sequence (C : CryptoModel) (t : PacketType) (mid : Nat)
    (pr : Priority) (payload : List Nat) (kp : ECCKeyPair)
    (hlen : payload.length ≤ 512) (hpriv : kp.has_private = true) :
    ∀ k, (buildIter C t mid pr payload kp (k + 1)).header.sequence = k % 4294967296 := by
  intro k
  show ((buildIter C t mid pr payload kp k).build C t mid pr payload kp).2.header.sequence = _
  rw [(build_advances_sequence _ C t mid pr payload kp hlen hpriv).2.1,
    buildIter_next_sequence C t mid pr payload kp hlen hpriv k]

/-- C8 (amended): every successful build stores the current counter value as
the packet sequence and advances the per-instance counter modulo 2^32 — a pure
state change of the packet object, independent of any later send outcome — and
the sequences of N successive successful builds on one instance are strictly
increasing as long as the counter has not wrapped, that is for builds numbered
below 2^32. (As stated for every N the claim fails: the uint32 counter wraps
back to 0 at build number 2^32 + 1, see the counterexample.) -/
theorem build_sequence_strictly_increasing_below_wrap
    (C : CryptoModel) (t : PacketType) (mid : Nat) (pr : Priority)
    (payload : List Nat) (kp : ECCKeyPair)
    (hlen : payload.length ≤ 512) (hpriv : kp.has_private = true) :
    (∀ p : SecurePacket,
        (p.build C t mid pr payload kp).1 = .ok () ∧
        (p.build C t mid pr payload kp).2.header.sequence = p.next_sequence ∧
        (p.build C t mid pr payload kp).2.next_sequence =
          (p.next_sequence + 1) % 4294967296) ∧
    (∀ i j : Nat, i < j → j < 4294967296 →
        (buildIter C t mid pr payload kp (i + 1)).header.sequence <
          (buildIter C t mid pr payload kp (j + 1)).header.sequence) := by
  refine ⟨fun p => build_advances_sequence p C t mid pr payload kp hlen hpriv, ?_⟩
  intro i j hij hj
  rw [buildIter_header_sequence C t mid pr payload kp hlen hpriv i,
    buildIter_header_sequence C t mid pr payload kp hlen hpriv j]
  omega

/-- C8 witness: two successive builds on a fresh instance carry sequences 0 and
1, exercising the monotonicity part at i = 0, j = 1. -/
theorem build_sequence_strictly_increasing_below_wrap_witness :
    (buildIter toyCrypto .Heartbeat 0 .Normal [] toyKeyPair 1).header.sequence <
      (buildIter toyCrypto .Heartbeat 0 .Normal [] toyKeyPair 2).header.sequence :=
  (build_sequence_strictly_increasing_below_wrap toyCrypto .Heartbeat 0 .Normal []
      toyKeyPair (by simp) rfl).2 0 1 (by omega) (by omega)

/-- C8 counterexample: the sequence field is a uint32 and the counter wraps:
on one instance, build number 2^32 carries sequence 4294967295 while build
number 2^32 + 1 carries sequence 0, so the sequence values of N successive
successful builds are not strictly increasing for every N. -/
theorem build_sequence_wraps_after_2_32 :
    (buildIter toyCrypto .Heartbeat 0 .Normal [] toyKeyPair 4294967296).header.sequence
        = 4294967295 ∧
    (buildIter toyCrypto .Heartbeat 0 .Normal [] toyKeyPair 4294967297).header.sequence
        = 0 := by
  constructor
  · have h := buildIter_header_sequence toyCrypto .Heartbeat 0 .Normal [] toyKeyPair
      (by simp) rfl 4294967295
    have e : 4294967295 + 1 = 4294967296 := by norm_num
    rw [e] at h
    omega
  · have h := buildIter_header_sequence toyCrypto .Heartbeat 0 .Normal [] toyKeyPair
      (by simp) rfl 4294967296
    have e : 4294967296 + 1 = 4294967297 := by norm_num
    rw [e] at h
    omega

theorem confirmType_eq (td : TamperDetector) (env : PollEnv) :
    td.confirmType env =
      if td.config.backup_power_pin > 0 ∧ env.backup_read = .ok false then
        TamperType.PowerCutAttempt
      else TamperType.CasingOpened := by
  unfold TamperDetector.confirmType
  by_cases hb : td.config.backup_power_pin > 0
  · cases hr : env.backup_read with
    | error e => simp [hb, hr]
    | ok v => cases v <;> simp [hb, hr]
  · simp [hb]

/-- C5: for an initialized tamper monitor with a pending unconfirmed trigger:
a poll before the debounce window has elapsed leaves the detector unchanged;
a poll after the window whose sensor re-read still shows the active-low sensor
asserted (reads low) confirms the tamper, records the confirmation timestamp
and classifies it as PowerCutAttempt when a backup-power pin is configured and
reads de-energized, else CasingOpened; a poll after the window whose re-read
shows the sensor released clears the pending flag and confirms nothing. -/
theorem tamper_poll_debounce_behavior (td : TamperDetector) (env : PollEnv)
    (hinit : td.initialized = true) (hpend : td.pending_tamper = true)
    (hconf : td.is_tampered = false)
    (hle : td.last_trigger_time ≤ env.now) (hnow : env.now < 18446744073709551616) :
    (env.now - td.last_trigger_time < td.config.debounce_ms →
        td.poll env = (.ok (), td)) ∧
    (td.config.debounce_ms ≤ env.now - td.last_trigger_time →
        env.sensor_read = .ok false →
        td.poll env =
          (.ok (),
           { td with
             is_tampered := true
             tamper_type :=
               if td.config.backup_power_pin > 0 ∧ env.backup_read = .ok false then
                 TamperType.PowerCutAttempt
               else TamperType.CasingOpened
             tamper_timestamp := env.confirm_time
             pending_tamper := false })) ∧
    (td.config.debounce_ms ≤ env.now - td.last_trigger_time →
        env.sensor_read = .ok true →
        td.poll env = (.ok (), { td with pending_tamper := false })) := by
  have hsub : usub64 env.now td.last_trigger_time = env.now - td.last_trigger_time :=
    usub64_eq_sub _ _ hle hnow
  refine ⟨?_, ?_, ?_⟩
  · intro h
    unfold TamperDetector.poll
    rw [if_neg (by simp [hinit]), if_neg (by simp [hpend, hconf]),
      if_pos (by rw [hsub]; exact h)]
  · intro h hs
    unfold TamperDetector.poll
    rw [if_neg (by simp [hinit]), if_neg (by simp [hpend, hconf]),
      if_neg (by rw [hsub]; omega), hs]
    simp [confirmType_eq]
  · intro h hs
    unfold TamperDetector.poll
    rw [if_neg (by simp [hinit]), if_neg (by simp [hpend, hconf]),
      if_neg (by rw [hsub]; omega), hs]

/-- C5 witness: the confirm branch exercised on a concrete detector (pending
since time 0, debounce 50 ms, no backup pin) polled at time 100 with the
sensor still reading low: the tamper is confirmed as CasingOpened with
confirmation timestamp 101 and the pending flag cleared. -/
theorem tamper_poll_debounce_behavior_witness :
    toyDetectorPending.poll toyPollEnvConfirm =
      (.ok (),
       { toyDetectorPending with
         is_tampered := true
         tamper_type := TamperType.CasingOpened
         tamper_timestamp := 101
         pending_tamper := false }) := by
  have h := (tamper_poll_debounce_behavior toyDetectorPending toyPollEnvConfirm
      rfl rfl rfl (by simp [toyDetectorPending, toyPollEnvConfirm])
      (by simp [toyPollEnvConfirm])).2.1
      (by simp [toyDetectorPending, toyPollEnvConfirm, TamperConfig.default]) rfl
  simpa [toyDetectorPending, toyPollEnvConfirm, TamperConfig.default] using h

/-- C7 (amended): when the authentication tag check fails, decrypt_aes_gcm
returns IntegrityViolation — but the cipher has already decrypted the
ciphertext into the caller buffer before the tag is checked, so the output
parameter holds the decrypted plaintext on return; only the error result keeps
callers on the success path from consuming it. -/
theorem decrypt_gcm_tag_failure_returns_integrity_violation
    (G : GcmModel) (key nonce ct tag out : List Nat)
    (hne : ct ≠ []) (htag : G.gcmCheckTag key nonce ct tag = false) :
    decrypt_aes_gcm G key nonce ct tag out =
      (.error .IntegrityViolation, writeBytes out (G.gcmDecrypt key nonce ct)) := by
  unfold decrypt_aes_gcm
  rw [if_neg (by simp [hne]), htag]
  simp

/-- C7 witness: a concrete failed decryption — the stand-in cipher rejects the
tag, IntegrityViolation is returned, and the caller buffer holds the decrypted
bytes. -/
theorem decrypt_gcm_tag_failure_witness :
    decrypt_aes_gcm toyGcm [1] [2] [10, 20] [9] [0, 0] =
      (.error .IntegrityViolation, [11, 21]) := by
  rw [decrypt_gcm_tag_failure_returns_integrity_violation toyGcm [1] [2] [10, 20]
    [9] [0, 0] (by simp) rfl]
  rfl

/-- C7 counterexample: decrypt_aes_gcm decrypts into the output parameter
before checking the tag, so on tag failure the decrypted plaintext is exposed
through the output parameter: the caller buffer [0, 0] comes back as the
decrypted bytes [11, 21] alongside the IntegrityViolation error, refuting the
claim that no decrypted plaintext bytes are exposed. -/
theorem decrypt_gcm_exposes_plaintext_on_tag_failure :
    decrypt_aes_gcm toyGcm [0] [0] [10, 20] [0] [0, 0] =
      (.error .IntegrityViolation, [11, 21]) ∧
    ([11, 21] : List Nat) ≠ [0, 0] ∧
    toyGcm.gcmDecrypt [0] [0] [10, 20] = [11, 21] := by
  refine ⟨rfl, by decide, rfl⟩

theorem parse_cases (p : SecurePacket) (C : CryptoModel)
    (buffer : List Nat) (kp : ECCKeyPair) :
    (p.parse C buffer kp).1 = .ok () ∨
      (p.parse C buffer kp).2.is_valid = p.is_valid := by
  simp only [SecurePacket.parse]
  repeat' split
  all_goals simp

theorem parse_error_keeps_is_valid (p : SecurePacket) (C : CryptoModel)
    (buffer : List Nat) (kp : ECCKeyPair)
    (h : (p.parse C buffer kp).1 ≠ .ok ()) :
    (p.parse C buffer kp).2.is_valid = p.is_valid :=
  (parse_cases p C buffer kp).resolve_left h

theorem build_fst_ok_is_valid (p : SecurePacket) (C : CryptoModel) (t : PacketType)
    (mid : Nat) (pr : Priority) (payload : List Nat) (kp : ECCKeyPair)
    (hb : (p.build C t mid pr payload kp).1 = .ok ()) :
    (p.build C t mid pr payload kp).2.is_valid = true := by
  by_cases h1 : payload.length > 512
  · unfold SecurePacket.build at hb
    rw [if_pos h1] at hb
    exact absurd hb (by simp)
  · by_cases h2 : kp.has_private = true
    · rw [build_eq p C t mid pr payload kp (by omega) h2]
    · have hf : kp.has_private = false := by
        revert h2; cases kp.has_private <;> simp
      unfold SecurePacket.build at hb
      rw [if_neg h1, if_pos hf] at hb
      exact absurd hb (by simp)

/-- C10 (implicit): SecurePacket::parse never clears the validity flag — on
every failed parse the flag keeps its prior value — and in particular a packet
that was successfully built still reports is_valid after a later failed parse
on the same instance, and serialize on it still succeeds given a sufficiently
large destination buffer (the header may by then hold bytes of the rejected
buffer, so sufficiently large means 96 bytes plus the current header payload
length). -/
theorem parse_failure_preserves_validity :
    (∀ (p : SecurePacket) (C : CryptoModel) (buffer : List Nat) (kp : ECCKeyPair),
        (p.parse C buffer kp).1 ≠ .ok () →
        (p.parse C buffer kp).2.is_valid = p.is_valid) ∧
    (∀ (p : SecurePacket) (C0 : CryptoModel) (t : PacketType) (mid : Nat)
        (pr : Priority) (payload : List Nat) (kp0 : ECCKeyPair)
        (C : CryptoModel) (buffer : List Nat) (kp : ECCKeyPair),
        (p.build C0 t mid pr payload kp0).1 = .ok () →
        ((p.build C0 t mid pr payload kp0).2.parse C buffer kp).1 ≠ .ok () →
        ((p.build C0 t mid pr payload kp0).2.parse C buffer kp).2.is_valid = true ∧
        ∃ bs,
          ((p.build C0 t mid pr payload kp0).2.parse C buffer kp).2.serialize
            (96 + ((p.build C0 t mid pr payload kp0).2.parse C buffer kp).2.header.payload_length)
            = .ok bs) := by
  refine ⟨parse_error_keeps_is_valid, ?_⟩
  intro p C0 t mid pr payload kp0 C buffer kp hb hfail
  have hv : ((p.build C0 t mid pr payload kp0).2.parse C buffer kp).2.is_valid = true :=
    (parse_error_keeps_is_valid _ C buffer kp hfail).trans
      (build_fst_ok_is_valid p C0 t mid pr payload kp0 hb)
  exact ⟨hv, ⟨_, serialize_ok _ _ hv (by omega)⟩⟩

/-- C10 witness: a concrete failed parse (empty buffer) on a fresh instance
keeps is_valid false, and the same failed parse after a successful build keeps
is_valid true. -/
theorem parse_failure_preserves_validity_witness :
    (SecurePacket.init.parse toyCrypto [] toyKeyPair).2.is_valid
        = SecurePacket.init.is_valid ∧
    ((SecurePacket.init.build toyCrypto .MeterData 7 .Normal [1] toyKeyPair).2.parse
        toyCrypto [] toyKeyPair).2.is_valid = true := by
  constructor
  · exact parse_failure_preserves_validity.1 SecurePacket.init toyCrypto [] toyKeyPair
      (by simp [SecurePacket.parse])
  · exact (parse_failure_preserves_validity.2 SecurePacket.init toyCrypto .MeterData 7
      .Normal [1] toyKeyPair toyCrypto [] toyKeyPair
      (by rw [build_eq SecurePacket.init toyCrypto .MeterData 7 .Normal [1] toyKeyPair
        (by simp) rfl])
      (by simp [SecurePacket.parse])).1

theorem set_append_right {α : Type} (l₁ l₂ : List α) (n : Nat) (c : α) :
    (l₁ ++ l₂).set (l₁.length + n) c = l₁ ++ l₂.set n c := by
  induction l₁ with
  | nil => simp
  | cons a t ih =>
    have e : (a :: t).length + n = (t.length + n) + 1 := by simp; omega
    rw [e]
    simp only [List.cons_append, List.set_cons_succ]
    rw [ih]

theorem set_append_left {α : Type} (l₁ l₂ : List α) (n : Nat) (c : α)
    (h : n < l₁.length) :
    (l₁ ++ l₂).set n c = l₁.set n c ++ l₂ := by
  induction l₁ generalizing n with
  | nil => simp at h
  | cons a t ih =>
    cases n with
    | zero => simp
    | succ k =>
      simp only [List.cons_append, List.set_cons_succ]
      rw [ih k (by simpa using h)]

/-- The first 31 bytes of a frame decode back to the header they encode, so the
whole header survives a parse round trip whenever its fields fit their wire
widths. -/
theorem decodeHeader_set_zero (H : PacketHeader) (rest : List Nat) (c : Nat) :
    decodeHeader ((encodeHeader H ++ rest).set 0 c) =
      { decodeHeader (encodeHeader H ++ rest) with magic_header := c % 256 } := by
  simp only [encodeHeader, enc2, enc4, enc8, List.cons_append, List.nil_append]
  simp only [List.set_cons_zero]
  simp [decodeHeader]

/-- SecurePacket::parse on a buffer of at least minimal length whose decoded
magic byte is wrong: fails with InvalidPacket right after the header copy. -/
theorem parse_bad_magic (p : SecurePacket) (C : CryptoModel) (kp : ECCKeyPair)
    (buffer : List Nat) (h96 : ¬ buffer.length < 96)
    (hm : (decodeHeader buffer).magic_header ≠ 165) :
    p.parse C buffer kp = (.error .InvalidPacket, { p with header := decodeHeader buffer }) := by
  simp only [SecurePacket.parse]
  rw [if_neg h96, if_pos hm]

set_option maxHeartbeats 2000000 in
/-- SecurePacket::parse evaluated on a well-formed frame layout
header(31) being a faithful encoding, payload of the declared length, a 64-byte
signature and one trailing footer byte: the parse reduces to the three
remaining checks (footer magic, checksum, signature). -/
theorem parse_frame (C : CryptoModel) (kp : ECCKeyPair) (H : PacketHeader)
    (payload sig : List Nat) (m : Nat)
    (hsig64 : sig.length = 64)
    (hpl : H.payload_length = payload.length) (hlen : payload.length ≤ 512)
    (hdec : decodeHeader (encodeHeader H ++ (payload ++ (sig ++ [m]))) = H)
    (hm : H.magic_header = 165) :
    SecurePacket.init.parse C (encodeHeader H ++ (payload ++ (sig ++ [m]))) kp =
      (if m ≠ 90 then (.error .InvalidPacket, frameParsed H payload sig m)
       else if checksum4 C payload ≠ H.checksum then
         (.error .IntegrityViolation, frameParsed H payload sig m)
       else
         match engineVerify C kp (encodeHeader H ++ payload) sig with
         | .error _ => (.error .SignatureInvalid, frameParsed H payload sig m)
         | .ok false => (.error .SignatureInvalid, frameParsed H payload sig m)
         | .ok true => (.ok (), { frameParsed H payload sig m with is_valid := true })) := by
  have hlen31 := length_encodeHeader H
  have hbl : (encodeHeader H ++ (payload ++ (sig ++ [m]))).length = 96 + payload.length := by
    rw [List.length_append, List.length_append, List.length_append,
      length_encodeHeader, hsig64, List.length_singleton]
    omega
  simp only [SecurePacket.parse, List.append_assoc]
  rw [hdec]
  rw [if_neg (by rw [hbl]; omega)]
  rw [if_neg (by simp [hm])]
  rw [if_neg (by omega)]
  rw [if_neg (by rw [hbl]; omega)]
  rw [hpl]
  rw [List.drop_left' hlen31]
  rw [List.take_left' rfl]
  rw [← List.drop_drop, List.drop_left' hlen31, List.drop_left' rfl]
  rw [List.take_left' hsig64, List.drop_left' hsig64]
  rw [take_writeBytes]
  rfl

theorem toyCrypto_wf : toyCrypto.WF := by
  refine ⟨?_, ?_, ?_, ?_⟩
  · intro mg
    simp [toyCrypto, toySha]
  · intro mg b hb
    simp [toyCrypto, toySha] at hb
    obtain ⟨i, _, rfl⟩ := hb
    omega
  · intro k mg
    simp [toyCrypto, toySign]
  · intro k mg b hb
    simp [toyCrypto, toySign] at hb
    obtain ⟨i, _, rfl⟩ := hb
    omega

theorem toyVerify_matching :
    ∀ mg : List Nat, toyCrypto.ecdsaVerify toyKeyPair.public_key mg
      (toyCrypto.sign toyKeyPair.private_key mg) = true := by
  intro mg
  show toyVerify toyPub mg (toySign toyPriv mg) = true
  unfold toyVerify
  have h : (toyPub.take 32).map (fun b => b - 1) = toyPriv := by
    simp [toyPub, toyPriv, List.take_replicate, List.map_replicate]
  rw [h]
  simp

set_option maxHeartbeats 2000000 in
/-- C1: for every payload of 0 to 512 bytes and every key pair holding a
private key (and whose public key verifies what the private key signs, as the
real curve guarantees), building a packet, serializing it into a buffer of the
exact required size and parsing that buffer against the matching public key
succeeds, reproduces the header fields and the payload bytes exactly, and the
parsed packet reports is_valid. Stated for any packet instance whose header
magic, version, footer magic and sequence counter are in their constructor
ranges (every instance reachable by builds from the constructor qualifies). -/
theorem packet_build_serialize_parse_roundtrip
    (C : CryptoModel) (hC : C.WF)
    (kp : ECCKeyPair) (hpriv : kp.has_private = true) (hpub : kp.has_public = true)
    (hverify : ∀ mg, C.ecdsaVerify kp.public_key mg (C.sign kp.private_key mg) = true)
    (p : SecurePacket)
    (hmagic : p.header.magic_header = 165) (hver : p.header.version < 65536)
    (hseq : p.next_sequence < 4294967296) (hfm : p.footer_magic = 90)
    (t : PacketType) (mid : Nat) (hmid : mid < 18446744073709551616) (pr : Priority)
    (payload : List Nat) (hlen : payload.length ≤ 512) :
    ∃ built bytes parsed,
      p.build C t mid pr payload kp = (.ok (), built) ∧
      built.serialize (96 + payload.length) = .ok bytes ∧
      SecurePacket.init.parse C bytes kp = (.ok (), parsed) ∧
      parsed.header = built.header ∧
      parsed.payload.take payload.length = payload ∧
      parsed.is_valid = true := by
  have hbe := build_eq p C t mid pr payload kp hlen hpriv
  have hmH : (builtHeader p C t mid pr payload).magic_header = 165 := by
    simp [builtHeader, hmagic]
  have hsig64 :
      (C.sign kp.private_key (encodeHeader (builtHeader p C t mid pr payload) ++ payload)).length
        = 64 := hC.sign_length _ _
  have hdec :
      decodeHeader (encodeHeader (builtHeader p C t mid pr payload) ++
        (payload ++
          (C.sign kp.private_key (encodeHeader (builtHeader p C t mid pr payload) ++ payload) ++
            [90]))) = builtHeader p C t mid pr payload := by
    apply decodeHeader_encodeHeader
    · simp [builtHeader, hmagic]
    · exact hver
    · exact PacketType_toNat_lt t
    · exact Priority_toNat_lt pr
    · exact hmid
    · exact hseq
    · simp only [builtHeader]
      omega
    · simp only [builtHeader]
      norm_num
    · exact checksum4_lt C payload
  have hparse := parse_frame C kp (builtHeader p C t mid pr payload) payload
      (C.sign kp.private_key (encodeHeader (builtHeader p C t mid pr payload) ++ payload)) 90
      hsig64 rfl hlen hdec hmH
  rw [if_neg (by simp)] at hparse
  rw [if_neg (by simp [builtHeader])] at hparse
  have hev : engineVerify C kp (encodeHeader (builtHeader p C t mid pr payload) ++ payload)
      (C.sign kp.private_key (encodeHeader (builtHeader p C t mid pr payload) ++ payload)) =
        .ok true := by
    unfold engineVerify
    rw [if_neg (by simp [hpub]), hverify]
  rw [hev] at hparse
  have hser2 := serialize_built_frame p C t mid pr payload kp
  nth_rewrite 2 [hfm] at hser2
  exact ⟨_, _, _, hbe, hser2, hparse, rfl, take_writeBytes _ _, rfl⟩

/-- C1 witness: the round trip exercised on a fresh instance with the concrete
crypto stand-in, payload [1, 2, 3] and meter id 7: build, serialize into a
99-byte buffer and parse all succeed and reproduce header and payload. -/
theorem packet_build_serialize_parse_roundtrip_witness :
    ∃ built bytes parsed,
      SecurePacket.init.build toyCrypto .MeterData 7 .Normal [1, 2, 3] toyKeyPair =
        (.ok (), built) ∧
      built.serialize (96 + List.length [1, 2, 3]) = .ok bytes ∧
      SecurePacket.init.parse toyCrypto bytes toyKeyPair = (.ok (), parsed) ∧
      parsed.header = built.header ∧
      parsed.payload.take (List.length [1, 2, 3]) = [1, 2, 3] ∧
      parsed.is_valid = true :=
  packet_build_serialize_parse_roundtrip toyCrypto toyCrypto_wf toyKeyPair rfl rfl
    toyVerify_matching SecurePacket.init rfl (by norm_num [SecurePacket.init])
    (by norm_num [SecurePacket.init]) rfl .MeterData 7 (by norm_num) .Normal
    [1, 2, 3] (by norm_num)

set_option maxHeartbeats 4000000 in
/-- C6: for a buffer obtained by serializing a validly built packet, parse on
the buffer with one payload byte changed fails with IntegrityViolation (under
the collision hypothesis that the change moves the truncated SHA-256, which is
what the real hash guarantees in all but astronomically unlikely cases); with
one signature byte changed it fails with SignatureInvalid (under the
corresponding hypothesis that the curve rejects the altered signature); with a
corrupted magic_header byte or corrupted magic_footer byte it fails with
InvalidPacket; and in every such corruption case the receiving packet instance
still reports is_valid false. -/
theorem parse_rejects_corrupted_frames
    (C : CryptoModel) (hC : C.WF)
    (kp : ECCKeyPair) (hpriv : kp.has_private = true)
    (p : SecurePacket)
    (hmagic : p.header.magic_header = 165) (hver : p.header.version < 65536)
    (hseq : p.next_sequence < 4294967296) (hfm : p.footer_magic = 90)
    (t : PacketType) (mid : Nat) (hmid : mid < 18446744073709551616) (pr : Priority)
    (payload : List Nat) (hlen : payload.length ≤ 512)
    (built : SecurePacket) (bytes : List Nat)
    (hb : p.build C t mid pr payload kp = (.ok (), built))
    (hs : built.serialize (96 + payload.length) = .ok bytes) :
    (∀ i c, i < payload.length →
        checksum4 C (payload.set i c) ≠ built.header.checksum →
        (SecurePacket.init.parse C (bytes.set (31 + i) c) kp).1 = .error .IntegrityViolation ∧
        (SecurePacket.init.parse C (bytes.set (31 + i) c) kp).2.is_valid = false) ∧
    (∀ j c, j < 64 →
        C.ecdsaVerify kp.public_key (encodeHeader built.header ++ payload)
          (built.footer_signature.set j c) = false →
        (SecurePacket.init.parse C (bytes.set (31 + payload.length + j) c) kp).1 =
          .error .SignatureInvalid ∧
        (SecurePacket.init.parse C (bytes.set (31 + payload.length + j) c) kp).2.is_valid
          = false) ∧
    (∀ c, c < 256 → c ≠ 165 →
        (SecurePacket.init.parse C (bytes.set 0 c) kp).1 = .error .InvalidPacket ∧
        (SecurePacket.init.parse C (bytes.set 0 c) kp).2.is_valid = false) ∧
    (∀ c, c ≠ 90 →
        (SecurePacket.init.parse C (bytes.set (95 + payload.length) c) kp).1 =
          .error .InvalidPacket ∧
        (SecurePacket.init.parse C (bytes.set (95 + payload.length) c) kp).2.is_valid
          = false) := by
  rw [build_eq p C t mid pr payload kp hlen hpriv] at hb
  injection hb with hb1 hb2
  subst hb2
  have hsig64 :
      (C.sign kp.private_key (encodeHeader (builtHeader p C t mid pr payload) ++ payload)).length
        = 64 := hC.sign_length _ _
  rw [serialize_built_frame p C t mid pr payload kp, hfm] at hs
  injection hs with hs1
  subst hs1
  have hdecAny : ∀ rest,
      decodeHeader (encodeHeader (builtHeader p C t mid pr payload) ++ rest) =
        builtHeader p C t mid pr payload := fun rest =>
    decodeHeader_encodeHeader (builtHeader p C t mid pr payload) rest
      (by simp [builtHeader, hmagic]) hver (PacketType_toNat_lt t) (Priority_toNat_lt pr)
      hmid hseq (by simp only [builtHeader]; omega) (by simp only [builtHeader]; norm_num)
      (checksum4_lt C payload)
  have hmH : (builtHeader p C t mid pr payload).magic_header = 165 := by
    simp [builtHeader, hmagic]
  refine ⟨?_, ?_, ?_, ?_⟩
  · intro i c hi hcs
    have e1 : (encodeHeader (builtHeader p C t mid pr payload) ++
          (payload ++
            (C.sign kp.private_key (encodeHeader (builtHeader p C t mid pr payload) ++ payload) ++
              [90]))).set (31 + i) c =
        encodeHeader (builtHeader p C t mid pr payload) ++
          (payload.set i c ++
            (C.sign kp.private_key (encodeHeader (builtHeader p C t mid pr payload) ++ payload) ++
              [90])) := by
      rw [show (31 : Nat) + i = (encodeHeader (builtHeader p C t mid pr payload)).length + i from
        by rw [length_encodeHeader]]
      rw [set_append_right, set_append_left _ _ _ _ hi]
    rw [e1]
    have hp := parse_frame C kp (builtHeader p C t mid pr payload) (payload.set i c)
        (C.sign kp.private_key (encodeHeader (builtHeader p C t mid pr payload) ++ payload)) 90
        hsig64 (by simp [builtHeader]) (by simp; omega) (hdecAny _) hmH
    rw [if_neg (by simp), if_pos hcs] at hp
    exact ⟨by rw [hp], by rw [hp]; simp [frameParsed]⟩
  · intro j c hj hbad
    have hjs : j < (C.sign kp.private_key
        (encodeHeader (builtHeader p C t mid pr payload) ++ payload)).length := by
      omega
    have e2 : (encodeHeader (builtHeader p C t mid pr payload) ++
          (payload ++
            (C.sign kp.private_key (encodeHeader (builtHeader p C t mid pr payload) ++ payload) ++
              [90]))).set (31 + payload.length + j) c =
        encodeHeader (builtHeader p C t mid pr payload) ++
          (payload ++
            ((C.sign kp.private_key
                (encodeHeader (builtHeader p C t mid pr payload) ++ payload)).set j c ++
              [90])) := by
      rw [show 31 + payload.length + j =
          (encodeHeader (builtHeader p C t mid pr payload)).length + (payload.length + j) from
        by rw [length_encodeHeader]; omega]
      rw [set_append_right]
      rw [set_append_right payload
        (C.sign kp.private_key (encodeHeader (builtHeader p C t mid pr payload) ++ payload) ++
          [90]) j c]
      rw [set_append_left _ _ _ _ hjs]
    rw [e2]
    have hp := parse_frame C kp (builtHeader p C t mid pr payload) payload
        ((C.sign kp.private_key
          (encodeHeader (builtHeader p C t mid pr payload) ++ payload)).set j c) 90
        (by simp [hsig64]) rfl hlen (hdecAny _) hmH
    rw [if_neg (by simp), if_neg (by simp [builtHeader])] at hp
    have hbad2 : C.ecdsaVerify kp.public_key
        (encodeHeader (builtHeader p C t mid pr payload) ++ payload)
        ((C.sign kp.private_key
          (encodeHeader (builtHeader p C t mid pr payload) ++ payload)).set j c) = false := hbad
    cases hpb : kp.has_public with
    | false =>
      rw [show engineVerify C kp
          (encodeHeader (builtHeader p C t mid pr payload) ++ payload)
          ((C.sign kp.private_key
            (encodeHeader (builtHeader p C t mid pr payload) ++ payload)).set j c) =
          .error .InvalidParameter from by simp [engineVerify, hpb]] at hp
      exact ⟨by rw [hp], by rw [hp]; simp [frameParsed]⟩
    | true =>
      rw [show engineVerify C kp
          (encodeHeader (builtHeader p C t mid pr payload) ++ payload)
          ((C.sign kp.private_key
            (encodeHeader (builtHeader p C t mid pr payload) ++ payload)).set j c) =
          .ok false from by simp [engineVerify, hpb, hbad2]] at hp
      exact ⟨by rw [hp], by rw [hp]; simp [frameParsed]⟩
  · intro c hc hc165
    have hblen : (encodeHeader (builtHeader p C t mid pr payload) ++
        (payload ++
          (C.sign kp.private_key (encodeHeader (builtHeader p C t mid pr payload) ++ payload) ++
            [90]))).length = 96 + payload.length := by
      rw [List.length_append, List.length_append, List.length_append,
        length_encodeHeader, hsig64, List.length_singleton]
      omega
    have hm2 : (decodeHeader ((encodeHeader (builtHeader p C t mid pr payload) ++
        (payload ++
          (C.sign kp.private_key (encodeHeader (builtHeader p C t mid pr payload) ++ payload) ++
            [90]))).set 0 c)).magic_header ≠ 165 := by
      rw [decodeHeader_set_zero]
      simpa using (by omega : c % 256 ≠ 165)
    have hp := parse_bad_magic SecurePacket.init C kp _
      (by rw [List.length_set, hblen]; omega) hm2
    exact ⟨by rw [hp], by rw [hp]; rfl⟩
  · intro c hc
    have e3 : (encodeHeader (builtHeader p C t mid pr payload) ++
          (payload ++
            (C.sign kp.private_key (encodeHeader (builtHeader p C t mid pr payload) ++ payload) ++
              [90]))).set (95 + payload.length) c =
        encodeHeader (builtHeader p C t mid pr payload) ++
          (payload ++
            (C.sign kp.private_key (encodeHeader (builtHeader p C t mid pr payload) ++ payload) ++
              [c])) := by
      rw [show 95 + payload.length =
          (encodeHeader (builtHeader p C t mid pr payload)).length + (payload.length + 64) from
        by rw [length_encodeHeader]; omega]
      rw [set_append_right]
      rw [set_append_right payload
        (C.sign kp.private_key (encodeHeader (builtHeader p C t mid pr payload) ++ payload) ++
          [90]) 64 c]
      rw [show (64 : Nat) = (C.sign kp.private_key
          (encodeHeader (builtHeader p C t mid pr payload) ++ payload)).length + 0 from
        by rw [hsig64]]
      rw [set_append_right
        (C.sign kp.private_key (encodeHeader (builtHeader p C t mid pr payload) ++ payload))
        [90] 0 c]
      rfl
    rw [e3]
    have hp := parse_frame C kp (builtHeader p C t mid pr payload) payload
        (C.sign kp.private_key (encodeHeader (builtHeader p C t mid pr payload) ++ payload)) c
        hsig64 rfl hlen (hdecAny _) hmH
    rw [if_pos hc] at hp
    exact ⟨by rw [hp], by rw [hp]; simp [frameParsed]⟩

set_option maxRecDepth 8000 in
set_option maxHeartbeats 4000000 in
/-- C6 witness: the four corruption cases exercised on the concrete built and
serialized frame for payload [1, 2, 3]: payload byte 0 changed to 99 gives
IntegrityViolation, signature byte 0 changed to 255 gives SignatureInvalid,
the magic header byte changed to 0 and the magic footer byte changed to 1 both
give InvalidPacket. -/
theorem parse_rejects_corrupted_frames_witness :
    (SecurePacket.init.parse toyCrypto
        ((((SecurePacket.init.build toyCrypto .MeterData 7 .Normal [1, 2, 3]
            toyKeyPair).2.serialize (96 + List.length [1, 2, 3])).toOption.getD []).set
          (31 + 0) 99) toyKeyPair).1 = .error .IntegrityViolation ∧
    (SecurePacket.init.parse toyCrypto
        ((((SecurePacket.init.build toyCrypto .MeterData 7 .Normal [1, 2, 3]
            toyKeyPair).2.serialize (96 + List.length [1, 2, 3])).toOption.getD []).set
          (31 + List.length [1, 2, 3] + 0) 255) toyKeyPair).1 = .error .SignatureInvalid ∧
    (SecurePacket.init.parse toyCrypto
        ((((SecurePacket.init.build toyCrypto .MeterData 7 .Normal [1, 2, 3]
            toyKeyPair).2.serialize (96 + List.length [1, 2, 3])).toOption.getD []).set
          0 0) toyKeyPair).1 = .error .InvalidPacket ∧
    (SecurePacket.init.parse toyCrypto
        ((((SecurePacket.init.build toyCrypto .MeterData 7 .Normal [1, 2, 3]
            toyKeyPair).2.serialize (96 + List.length [1, 2, 3])).toOption.getD []).set
          (95 + List.length [1, 2, 3]) 1) toyKeyPair).1 = .error .InvalidPacket := by
  have h := parse_rejects_corrupted_frames toyCrypto toyCrypto_wf toyKeyPair rfl
    SecurePacket.init rfl (by norm_num [SecurePacket.init]) (by norm_num [SecurePacket.init])
    rfl .MeterData 7 (by norm_num) .Normal [1, 2, 3] (by norm_num)
    (SecurePacket.init.build toyCrypto .MeterData 7 .Normal [1, 2, 3] toyKeyPair).2
    (((SecurePacket.init.build toyCrypto .MeterData 7 .Normal [1, 2, 3]
        toyKeyPair).2.serialize (96 + List.length [1, 2, 3])).toOption.getD [])
    rfl rfl
  exact ⟨(h.1 0 99 (by norm_num) (by decide)).1,
    (h.2.1 0 255 (by norm_num) (by decide)).1,
    (h.2.2.1 0 (by norm_num) (by norm_num)).1,
    (h.2.2.2 1 (by norm_num)).1⟩

theorem send_meter_reading_detector (sys : GridShieldSystem) (C : CryptoModel)
    (env : CycleEnv) (r : MeterReading) :
    (sys.send_meter_reading C env r).2.1.tamper_detector = sys.tamper_detector := by
  unfold GridShieldSystem.send_meter_reading
  repeat' split
  all_goals rfl

theorem send_meter_reading_state (sys : GridShieldSystem) (C : CryptoModel)
    (env : CycleEnv) (r : MeterReading) :
    (sys.send_meter_reading C env r).2.1.state = sys.state := by
  unfold GridShieldSystem.send_meter_reading
  repeat' split
  all_goals rfl

theorem send_meter_reading_trace (sys : GridShieldSystem) (C : CryptoModel)
    (env : CycleEnv) (r : MeterReading) :
    ∀ ev ∈ (sys.send_meter_reading C env r).2.2, ev.1 = PacketType.MeterData := by
  unfold GridShieldSystem.send_meter_reading
  repeat' split
  all_goals intro ev hev
  all_goals simp at hev
  all_goals simp [hev]

theorem send_heartbeat_trace (sys : GridShieldSystem) (C : CryptoModel)
    (env : CycleEnv) :
    ∀ ev ∈ (sys.send_heartbeat C env).2, ev.1 = PacketType.Heartbeat := by
  unfold GridShieldSystem.send_heartbeat
  repeat' split
  all_goals intro ev hev
  all_goals simp at hev
  all_goals simp [hev]

theorem cycleSteps_detector (sys : GridShieldSystem) (C : CryptoModel) (env : CycleEnv)
    (tr0 : List (PacketType × Except ErrorCode Unit)) :
    (sys.cycleSteps C env tr0).2.1.tamper_detector = sys.tamper_detector := by
  simp only [GridShieldSystem.cycleSteps]
  repeat' split
  all_goals simp [send_meter_reading_detector]

theorem cycleSteps_state (sys : GridShieldSystem) (C : CryptoModel) (env : CycleEnv)
    (tr0 : List (PacketType × Except ErrorCode Unit)) :
    (sys.cycleSteps C env tr0).2.1.state = sys.state := by
  simp only [GridShieldSystem.cycleSteps]
  repeat' split
  all_goals simp [send_meter_reading_state]

theorem mem_append3 {α : Type} {P Q : α → Prop} (tr0 A B : List α)
    (hA : ∀ x ∈ A, P x) (hB : ∀ x ∈ B, Q x) :
    ∀ x ∈ tr0 ++ A ++ B, x ∈ tr0 ∨ P x ∨ Q x := by
  intro x hx
  rcases List.mem_append.mp hx with h | h
  · rcases List.mem_append.mp h with h2 | h2
    · exact Or.inl h2
    · exact Or.inr (Or.inl (hA x h2))
  · exact Or.inr (Or.inr (hB x h))

theorem cycleSteps_trace (sys : GridShieldSystem) (C : CryptoModel) (env : CycleEnv)
    (tr0 : List (PacketType × Except ErrorCode Unit)) :
    ∀ ev ∈ (sys.cycleSteps C env tr0).2.2,
      ev ∈ tr0 ∨ ev.1 = PacketType.Heartbeat ∨ ev.1 = PacketType.MeterData := by
  simp only [GridShieldSystem.cycleSteps]
  repeat' split
  all_goals refine mem_append3 _ _ _ ?_ ?_
  all_goals first
    | exact send_heartbeat_trace _ _ _
    | exact send_meter_reading_trace _ _ _ _
    | (intro x hx; exact absurd hx (List.not_mem_nil x))

/-- C3: GridShieldSystem::process_cycle never invokes TamperDetector::poll (no
call site of poll exists anywhere in the repository), so a pending unconfirmed
tamper trigger is never confirmed by a cycle: for every Operating system whose
detector holds a pending trigger with no confirmed tamper, one process_cycle
call leaves the tamper detector state exactly as it was, stays in Operating,
and emits no TamperAlert — contradicting the claimed
pending-to-confirmed-and-alert behavior of a single cycle. -/
theorem process_cycle_ignores_pending_tamper (sys : GridShieldSystem)
    (C : CryptoModel) (env : CycleEnv)
    (hstate : sys.state = .Operating)
    (hpend : sys.tamper_detector.pending_tamper = true)
    (hunconf : sys.tamper_detector.is_tampered = false) :
    (sys.process_cycle C env).2.1.tamper_detector = sys.tamper_detector ∧
    (sys.process_cycle C env).2.1.state = SystemState.Operating ∧
    ∀ ev ∈ (sys.process_cycle C env).2.2, ev.1 ≠ PacketType.TamperAlert := by
  unfold GridShieldSystem.process_cycle
  rw [if_neg (by simp [hstate]), if_neg (by simp [hunconf])]
  refine ⟨cycleSteps_detector sys C env [], ?_, ?_⟩
  · rw [cycleSteps_state sys C env []]
    exact hstate
  · intro ev hev
    rcases cycleSteps_trace sys C env [] ev hev with h | h | h
    · simp at h
    · rw [h]
      simp
    · rw [h]
      simp

/-- C3 witness: the divergence exercised concretely — an Operating system whose
detector has a pending unconfirmed trigger (recorded at time 0, polled never)
runs one cycle at time 100: the detector is unchanged (still pending,
unconfirmed), the state is still Operating and no TamperAlert was sent. -/
theorem process_cycle_ignores_pending_tamper_witness :
    ((toySystem toyDetectorPending).process_cycle toyCrypto toyEnvSendFail).2.1.tamper_detector
        = toyDetectorPending ∧
    ((toySystem toyDetectorPending).process_cycle toyCrypto toyEnvSendFail).2.1.state
        = SystemState.Operating ∧
    ∀ ev ∈ ((toySystem toyDetectorPending).process_cycle toyCrypto toyEnvSendFail).2.2,
      ev.1 ≠ PacketType.TamperAlert :=
  process_cycle_ignores_pending_tamper (toySystem toyDetectorPending) toyCrypto
    toyEnvSendFail rfl rfl rfl

theorem send_tamper_alert_fail (sys : GridShieldSystem) (C : CryptoModel)
    (env : CycleEnv)
    (hinit : sys.initialized = true) (hcr : sys.has_crypto = true)
    (htr : sys.has_transport = true) (hpriv : sys.device_keypair.has_private = true)
    (e : ErrorCode) (hsend : env.tamper_send = .error e) :
    sys.send_tamper_alert C env = (.error e, [(.TamperAlert, .error e)]) := by
  simp only [GridShieldSystem.send_tamper_alert]
  rw [if_neg (by simp [hinit, hcr, htr])]
  rw [build_eq SecurePacket.init C .TamperAlert sys.config.meter_id .Emergency _
    sys.device_keypair (by rw [length_encodeTamperEvent]; omega) hpriv]
  simp only [sendPacketVia]
  rw [if_neg (by simp)]
  rw [serialize_ok _ 608 rfl (by simp [builtHeader, length_encodeTamperEvent])]
  rw [hsend]

/-- C4 (amended): when process_cycle detects a newly confirmed tamper and the
alert send fails, the local transition still takes effect — the returned state
is Tampered with tamper-response mode and the physical-tamper signal latched —
but the send failure is returned immediately and does block the remaining
per-tick processing of that call: the heartbeat and reading clocks are
untouched, cross-layer validation is not recomputed, and the trace holds only
the failed TamperAlert attempt. (The claim that heartbeat, reading and
validation still run in that same call fails, see the counterexample.) -/
theorem process_cycle_tamper_send_failure (sys : GridShieldSystem)
    (C : CryptoModel) (env : CycleEnv)
    (hstate : sys.state = .Operating)
    (htamp : sys.tamper_detector.is_tampered = true)
    (hinit : sys.initialized = true) (hcr : sys.has_crypto = true)
    (htr : sys.has_transport = true) (hpriv : sys.device_keypair.has_private = true)
    (e : ErrorCode) (hsend : env.tamper_send = .error e) :
    sys.process_cycle C env =
      (.error e, sys.tamperTransition env, [(.TamperAlert, .error e)]) ∧
    (sys.tamperTransition env).state = SystemState.Tampered ∧
    (sys.tamperTransition env).mode = OperationMode.TamperResponse ∧
    (sys.tamperTransition env).validation_state.physical_tamper_detected = true ∧
    (sys.tamperTransition env).last_heartbeat = sys.last_heartbeat ∧
    (sys.tamperTransition env).last_reading = sys.last_reading := by
  refine ⟨?_, rfl, rfl, rfl, rfl, rfl⟩
  simp only [GridShieldSystem.process_cycle]
  rw [if_neg (by simp [hstate]), if_pos (by simp [htamp, hstate])]
  rw [send_tamper_alert_fail (sys.tamperTransition env) C env hinit hcr htr hpriv e hsend]

/-- C4 witness: the amended behavior exercised concretely — an Operating system
with a confirmed tamper whose transport send fails returns the send error with
the Tampered transition applied and only the TamperAlert attempt in the trace. -/
theorem process_cycle_tamper_send_failure_witness :
    (toySystem toyDetectorConfirmed).process_cycle toyCrypto toyEnvSendFail =
      (.error .TransmissionFailed,
       (toySystem toyDetectorConfirmed).tamperTransition toyEnvSendFail,
       [(.TamperAlert, .error .TransmissionFailed)]) :=
  (process_cycle_tamper_send_failure (toySystem toyDetectorConfirmed) toyCrypto
    toyEnvSendFail rfl rfl rfl rfl rfl rfl .TransmissionFailed rfl).1

set_option maxRecDepth 8000 in
set_option maxHeartbeats 4000000 in
/-- C4 counterexample: a concrete Operating system with a confirmed tamper, a
failing alert send and a heartbeat 100 ms overdue (interval 10 ms): the cycle
returns the send error, the state is Tampered, but the heartbeat clock is
untouched and the trace holds no Heartbeat send — the heartbeat step did not
run in that call, refuting the claim that a tamper-alert send failure does not
block the remaining per-tick processing. -/
theorem process_cycle_tamper_send_failure_blocks_tick :
    usub64 toyEnvSendFail.current_time (toySystem toyDetectorConfirmed).last_heartbeat ≥
      (toySystem toyDetectorConfirmed).config.heartbeat_interval_ms ∧
    ((toySystem toyDetectorConfirmed).process_cycle toyCrypto toyEnvSendFail).1 =
      .error .TransmissionFailed ∧
    ((toySystem toyDetectorConfirmed).process_cycle toyCrypto toyEnvSendFail).2.1.state =
      SystemState.Tampered ∧
    ((toySystem toyDetectorConfirmed).process_cycle toyCrypto toyEnvSendFail).2.1.last_heartbeat
      = 0 ∧
    ((toySystem toyDetectorConfirmed).process_cycle toyCrypto toyEnvSendFail).2.2 =
      [(.TamperAlert, .error .TransmissionFailed)] := by
  refine ⟨by decide, ?_, ?_, ?_, ?_⟩ <;> rfl

end GridShield
